import Mathlib

/-!
# Verification of the bakutils-catcher library

A shallow embedding, in Lean 4, of the parts of the `bakutils-catcher`
TypeScript library that the verified properties talk about:

* the JavaScript value model needed by the shape predicates of `src/Utils`
  (`BAKUtilsIsPromise`, `BAKUtilsIsThenable`, `BAKUtilsIsXrmPromiseLike`,
  `BAKUtilsIsXrmError`, `BAKUtilsGetFnValue`);
* the interception wrapper `createCatchLogic` with its entry points
  `catcher` and `defaultCatcher` (`src/Decorators.ts`);
* the `Option` sum type (`Some` / `None` / smart constructor `Option`,
  `map`, `okOr`, `clone`, producer support) from `src/Option.ts`;
* the `Result` sum type (`Ok` / `Err`, `map`, `toOption`, `unwrap`,
  `toJSON`) from `src/Result.ts`;
* a small model of `JSON.stringify` traversal sufficient to express the
  serialization behaviour of `Err.toJSON`.

Conventions of the embedding:

* JavaScript `undefined` and `null` are the `JSVal.vundefined` / `JSVal.vnull`
  constructors; a JavaScript function that returns `undefined` where an
  object is expected is modelled with `Option` on the Lean side
  (`none` = the call evaluated to `undefined`).
* A JavaScript exception is a `JSVal`; a computation that can throw is an
  `Except JSVal` computation.
* `instanceof C` is modelled by a list of class names carried by error
  objects (the prototype chain); plain objects, strings, numbers are not
  `instanceof` any error class, exactly as in JavaScript.
* Asynchronous behaviour is modelled at the level of settled outcomes:
  a well-behaved promise or thenable eventually either resolves with a
  value or rejects with a reason, exactly once.  Timing is irrelevant to
  the verified properties and is not modelled.
-/

namespace Bakutils

/-- Model of a JavaScript runtime value, as far as the library observes it:
`null`, `undefined`, booleans, numbers (with `Infinity` kept separate),
strings, exception objects carrying their prototype-chain class names and a
`message`, and plain objects given as association lists of fields. -/
inductive JSVal : Type where
  | vnull
  | vundefined
  | vbool (b : Bool)
  | vnum (n : Int)
  | vinf
  | vstr (s : String)
  | verror (classes : List String) (msg : String)
  | vobj (fields : List (String × JSVal))


/-- Field lookup in an association list of object fields; the first binding
of a name wins, as for JavaScript object literals read left to right. -/
def lookupField : List (String × JSVal) → String → Option JSVal
  | [], _ => none
  | (k, v) :: rest, name => if k = name then some v else lookupField rest name

/-- Property access `v[name]`: a missing property reads as `undefined`.
Error objects expose their `message` string; all their other observed
properties read as `undefined` (in particular `errorCode`). -/
def prop (v : JSVal) (name : String) : JSVal :=
  match v with
  | .vobj fields => (lookupField fields name).getD .vundefined
  | .verror _ msg => if name = "message" then .vstr msg else .vundefined
  | _ => .vundefined

/-- JavaScript truthiness of a value. -/
def truthy : JSVal → Bool
  | .vnull => false
  | .vundefined => false
  | .vbool b => b
  | .vnum n => n ≠ 0
  | .vinf => true
  | .vstr s => s ≠ ""
  | .verror _ _ => true
  | .vobj _ => true

/-- `typeof v === "number"`. -/
def typeofNumber : JSVal → Bool
  | .vnum _ => true
  | .vinf => true
  | _ => false

/-- `typeof v === "string"`. -/
def typeofString : JSVal → Bool
  | .vstr _ => true
  | _ => false

/-- `v instanceof C` for an error-class constructor named `cls`: true
exactly when `v` is an exception object whose prototype chain contains
`cls`.  Strings, plain objects and other primitives are never instances
of an error class. -/
def instanceOf (v : JSVal) (cls : String) : Bool :=
  match v with
  | .verror classes _ => classes.contains cls
  | _ => false

/-- `BAKUtilsIsXrmError` from `src/Utils`:
`obj && typeof obj.errorCode === 'number' && typeof obj.message === 'string'`.
Recognizes the third-party platform's plain error objects. -/
def BAKUtilsIsXrmError (v : JSVal) : Bool :=
  truthy v && typeofNumber (prop v "errorCode") && typeofString (prop v "message")

/-- How an asynchronous computation eventually settles: it either resolves
with a value or rejects with a reason, exactly once. -/
inductive Settle : Type where
  | resolves (v : JSVal)
  | rejects (e : JSVal)


/-- The value returned by the wrapped function when it does not throw,
as probed by the shape predicates of `src/Utils`:

* `plainVal v` — a value that is not a native `Promise` and has no callable
  `then` member; none of the async branches fire for it;
* `asyncVal isNative hasCatch s` — a value with a callable `then` member
  (`isNative` records `instanceof Promise`, `hasCatch` records a callable
  `catch` member) that eventually settles as `s`. -/
inductive RetVal : Type where
  | plainVal (v : JSVal)
  | asyncVal (isNative : Bool) (hasCatch : Bool) (s : Settle)


/-- `BAKUtilsIsPromise`: `o instanceof Promise`. -/
def BAKUtilsIsPromise : RetVal → Bool
  | .asyncVal isNative _ _ => isNative
  | .plainVal _ => false

/-- `BAKUtilsIsThenable`: `o` is an object with a callable `then`. -/
def BAKUtilsIsThenable : RetVal → Bool
  | .asyncVal _ _ _ => true
  | .plainVal _ => false

/-- `BAKUtilsIsXrmPromiseLike`: thenable that also exposes a callable
`catch`. -/
def BAKUtilsIsXrmPromiseLike : RetVal → Bool
  | .asyncVal _ hasCatch _ => hasCatch
  | .plainVal _ => false

/-- Outcome of one call of the wrapped function `fn` on given arguments:
it either throws synchronously or returns a value. -/
inductive FnOutcome : Type where
  | throwSync (e : JSVal)
  | ret (r : RetVal)


/-- A user-supplied recovery handler, as invoked by `createCatchLogic`:
`handler.call(null, err, fnName, ctx, ...args)` — it receives the error,
the diagnostic function name, the `this` context and the original
arguments, and produces the substitute outcome. -/
def Handler : Type := JSVal → String → JSVal → List JSVal → JSVal

/-- A wrapped callable: its observable `name` (used for the diagnostic
label, `fn.name || 'anonymous function'`) and its behaviour, the outcome
of `fn.apply(ctx, args)`. -/
structure JSFunction : Type where
  name : String
  body : JSVal → List JSVal → FnOutcome

/-- Observable outcome of one invocation of the wrapper built by
`createCatchLogic`:

* `returns v` — the plain value came back unchanged;
* `throws e` — the synchronous exception was re-thrown;
* `handledSync r` — the handler was invoked synchronously and its result
  returned;
* `resolvesWith v` — the async shape resolved and the wrapper's promise
  resolves with the same value;
* `handledAsync r` — the async shape rejected, the handler was invoked and
  the wrapper's promise resolves with its result;
* `rejectsWith e` — the wrapper's promise rejects with `e` (this is what
  propagation of an unmatched rejection would look like). -/
inductive WrapOutcome : Type where
  | returns (v : JSVal)
  | throws (e : JSVal)
  | handledSync (r : JSVal)
  | resolvesWith (v : JSVal)
  | handledAsync (r : JSVal)
  | rejectsWith (e : JSVal)


/-- The synchronous filter of `createCatchLogic`
(`src/Decorators.ts`):
`!ErrorClass || syncErr instanceof ErrorClass || BAKUtilsIsXrmError(syncErr)`.
`none` models an absent (`undefined`) `ErrorClass`. -/
def syncFilterMatches : Option String → JSVal → Bool
  | none, _ => true
  | some cls, e => instanceOf e cls || BAKUtilsIsXrmError e

/-- Recovery attachment on the asynchronous channel.  All three async
branches of `createCatchLogic` end in `.catch(invokeHandler)` on a
canonical promise carrying the settled outcome (`result.catch(...)` for a
native promise, `new Promise((ok, bad) => result.then(ok).catch(bad))`
for the platform thenable, `Promise.resolve(result)` for a generic
thenable): a resolution passes through, a rejection invokes the handler
unconditionally and the wrapper resolves with the handler's result.
The `plainVal` case is unreachable: the three guards only route values
with a callable `then` (or native promises) here. -/
def attachRecovery (handler : Handler) (fnName : String) (ctx : JSVal)
    (args : List JSVal) : RetVal → WrapOutcome
  | .asyncVal _ _ (.resolves v) => .resolvesWith v
  | .asyncVal _ _ (.rejects e) => .handledAsync (handler e fnName ctx args)
  | .plainVal v => .returns v

/-- `return result` with no recovery attached: a plain value reaches the
caller directly; were an async value returned unchanged, the caller would
just hold that promise, which resolves or rejects as it settles. -/
def returnUnchanged : RetVal → WrapOutcome
  | .plainVal v => .returns v
  | .asyncVal _ _ (.resolves v) => .resolvesWith v
  | .asyncVal _ _ (.rejects e) => .rejectsWith e

/-- `createCatchLogic` from `src/Decorators.ts`: the body of the wrapper
returned for a given `ErrorClass` filter, handler, wrapped function and
diagnostic name, evaluated at a `this` context and argument list.

```
try {
    const result = fn.apply(ctx, args);
    if (BAKUtilsIsPromise(result)) return result.catch(invokeHandler);
    if (BAKUtilsIsXrmPromiseLike(result)) return new Promise((ok, bad) =>
        (result as any).then(ok).catch(bad)).catch(invokeHandler);
    if (BAKUtilsIsThenable(result)) return Promise.resolve(result).catch(invokeHandler);
    return result;
} catch (syncErr) {
    if (!ErrorClass || syncErr instanceof ErrorClass || BAKUtilsIsXrmError(syncErr))
        return invokeHandler(syncErr);
    throw syncErr;
}
``` -/
def createCatchLogic (errClass : Option String) (handler : Handler)
    (fn : JSFunction) (fnName : String) (ctx : JSVal) (args : List JSVal) :
    WrapOutcome :=
  match fn.body ctx args with
  | .throwSync e =>
      if syncFilterMatches errClass e then .handledSync (handler e fnName ctx args)
      else .throws e
  | .ret r =>
      if BAKUtilsIsPromise r then attachRecovery handler fnName ctx args r
      else if BAKUtilsIsXrmPromiseLike r then attachRecovery handler fnName ctx args r
      else if BAKUtilsIsThenable r then attachRecovery handler fnName ctx args r
      else returnUnchanged r

/-- `fn.name || 'anonymous function'`. -/
def diagnosticName (fn : JSFunction) : String :=
  if fn.name = "" then "anonymous function" else fn.name

/-- `catcher(fn, ErrCls, handler)` from `src/Decorators.ts`: the function
wrapper with a specific error-class filter. -/
def catcher (fn : JSFunction) (errCls : String) (handler : Handler)
    (ctx : JSVal) (args : List JSVal) : WrapOutcome :=
  createCatchLogic (some errCls) handler fn (diagnosticName fn) ctx args

/-- `defaultCatcher(fn, handler)` from `src/Decorators.ts`:
`createCatchLogic(Error, handler, fn, nameOfCallingFunction)` — note the
filter argument is the base `Error` class, not absent. -/
def defaultCatcher (fn : JSFunction) (handler : Handler)
    (ctx : JSVal) (args : List JSVal) : WrapOutcome :=
  createCatchLogic (some "Error") handler fn (diagnosticName fn) ctx args

/-! ## The `Option` sum type (`src/Option.ts`) and `Result` sum type
(`src/Result.ts`), at the level of contained values. -/

/-- Value-level view of an `Option<T>` object: its discriminant and, for
the `'some'` variant, the contained value. -/
inductive OptionV : Type where
  | someV (v : JSVal)
  | noneV

/-- Value-level view of a `Result<T, E>` object: discriminant `'ok'` with
the value, or `'error'` with the error payload. -/
inductive ResultV : Type where
  | okV (v : JSVal)
  | errV (e : JSVal)

/-- The exception thrown by the `Some` constructor on a nullish argument:
`new Error("Some() cannot be called with null or undefined")`. -/
def someCtorError : JSVal :=
  .verror ["Error"] "Some() cannot be called with null or undefined"

/-- `value === null || value === undefined` (guard of `Some`). -/
def isNullish (v : JSVal) : Bool :=
  v matches .vnull || v matches .vundefined

/-- The `Some` constructor, `src/Option.ts`:
throws when the argument is `null` or `undefined`, otherwise builds the
`'some'` object around the value. -/
def SomeMk (v : JSVal) : Except JSVal OptionV :=
  if isNullish v then .error someCtorError else .ok (.someV v)

/-- The smart constructor `Option` applied to a plain (non-callable) value,
`src/Option.ts`: `value === undefined || value === null ? None : Some(value)`. -/
def OptionMk (v : JSVal) : OptionV :=
  if isNullish v then .noneV else .someV v

/-- Argument of the smart constructor `Option(valueOrProducer)`: either a
plain value (`typeof value !== 'function'`) or a zero-argument producer
callable, which may itself throw. -/
inductive OptionArg : Type where
  | plain (v : JSVal)
  | producerArg (p : Unit → Except JSVal JSVal)

/-- The full smart constructor `Option(valueOrProducer)` of `src/Option.ts`:

```
if (typeof value === 'function') {
    try {
        const result = getFnValue(value);
        return result === undefined || result === null ? None : Some(result);
    } catch (err) {
        console.error(err);
        return None;
    }
}
return value === undefined || value === null ? None : Some(value);
```

A producer's exception is swallowed (logged via `console.error`) and
yields `None`; a producer's nullish result yields `None`; any other result
is wrapped in `Some` (the ternary guard guarantees `Some` cannot throw
here). -/
def OptionCtor : OptionArg → OptionV
  | .plain v => if isNullish v then .noneV else .someV v
  | .producerArg p =>
      match p () with
      | .error _ => .noneV
      | .ok r => if isNullish r then .noneV else .someV r

/-- `map` of the `Option` type, `src/Option.ts`.  On a `'some'` object the
method is `map: (fn) => Some(fn(value))` — the output goes through the
throwing `Some` constructor, not through the smart constructor `Option`.
On the `None` object the method is `map: () => None`, which ignores the
callback entirely. -/
def optionMap (o : OptionV) (fn : JSVal → JSVal) : Except JSVal OptionV :=
  match o with
  | .someV v => SomeMk (fn v)
  | .noneV => .ok .noneV

/-- A `ValueOrFn<T>` argument (`src/Utils`): a plain value or a
zero-argument producer. -/
inductive ValueOrFn : Type where
  | val (v : JSVal)
  | producer (f : Unit → JSVal)

/-- `BAKUtilsGetFnValue` (`src/Utils`):
`typeof df === 'function' ? df() : df`. -/
def getFnValue : ValueOrFn → JSVal
  | .val v => v
  | .producer f => f ()

/-- `okOr` of a `'some'` Option object, `src/Option.ts`:
`okOr: (_err) => Ok(value)` — the error argument is ignored. -/
def someOkOr (v : JSVal) (_err : ValueOrFn) : ResultV := .okV v

/-- `okOr` of the `None` object, `src/Option.ts`:
`okOr: (err) => Err(getFnValue(err))`. -/
def noneOkOr (err : ValueOrFn) : ResultV := .errV (getFnValue err)

/-- `unwrap` of a `Result` object, `src/Result.ts`: `Ok` returns its
value, `Err` throws its error payload. -/
def resultUnwrap : ResultV → Except JSVal JSVal
  | .okV v => .ok v
  | .errV e => .error e

/-- `toOption` of an `'ok'` Result object, `src/Result.ts`:
`toOption: () => Option(value)` — the value is re-classified through the
smart constructor. -/
def okToOption (v : JSVal) : OptionV := OptionMk v

/-- `toOption` of an `'error'` Result object, `src/Result.ts`:
`toOption: () => None`. -/
def errToOption (_e : JSVal) : OptionV := .noneV

/-- `map` of a `Result` object, `src/Result.ts`.  On `'ok'`:

```
map: <U>(fn: (value: T) => U): Result<U, E> => {
    try { return Ok(fn(value)); } catch (error) { return Err(error as E); }
}
```

On `'error'` the body is `return this;` inside an arrow function.  The
arrow captures the `this` of the enclosing plain function `Err`, and a
plain call `Err(error)` in a strict-mode ES module binds `this` to
`undefined`, so the call returns `undefined` rather than any `Result`
object.  The result type is therefore `Option ResultV`, with `none`
standing for that returned `undefined`. -/
def resultMap (r : ResultV) (fn : JSVal → Except JSVal JSVal) :
    Option ResultV :=
  match r with
  | .okV v =>
      match fn v with
      | .ok u => some (.okV u)
      | .error x => some (.errV x)
  | .errV _ => none

/-- `clone` of a `'some'` Option object, `src/Option.ts`:
`clone: () => structuredClone(this)`.  The arrow captures the `this` of
the enclosing plain function `Some`, which is `undefined` for a plain
strict-mode call, and `structuredClone(undefined)` evaluates to
`undefined`: the call returns `undefined`, not a copy of the option.
`none` models that returned `undefined`; the contained value does not
influence the result. -/
def someClone (_v : JSVal) : Option OptionV := none

/-- `toJSON` of an `'error'` Result object, `src/Result.ts`:
`toJSON: () => { throw error; }`. -/
def errToJSON (e : JSVal) : Except JSVal JSVal := .error e

/-- `toJSON` of a `'some'` Option object, `src/Option.ts`:
`toJSON: () => value`. -/
def someToJSON (v : JSVal) : Except JSVal JSVal := .ok v

/-- `toJSON` of the `None` object, `src/Option.ts`: `toJSON: () => null`. -/
def noneToJSON : Except JSVal JSVal := .ok .vnull

/-! ## Identity-level view of `Option` construction (`src/Option.ts`)

The module initializes a single `None` object (`export const None = ...`,
frozen right after with `Object.freeze(None)`); every `Some(value)` call
builds a fresh object literal.  `OptionObj` distinguishes, for an
expression evaluating to an option, whether the produced reference is the
shared module-level `None` object, a freshly allocated `'some'` object, or
a freshly allocated `'none'`-shaped object (which the module never
actually creates — the constructor is present so that sharing is an
observable fact, not a vacuity of the model). -/
inductive OptionObj : Type where
  | sharedNone
  | freshSome (v : JSVal)
  | freshNone

/-- Identity-level smart constructor `Option(value)` on a plain value:
`value === undefined || value === null` returns the module-level constant
`None`; otherwise `Some(value)` allocates a fresh `'some'` object. -/
def OptionCtorObj (v : JSVal) : OptionObj :=
  if isNullish v then .sharedNone else .freshSome v

/-- `None.map: () => None` — returns the module-level constant itself. -/
def noneMapObj : OptionObj := .sharedNone

/-- `None.flatMap: (_fn) => None`. -/
def noneFlatMapObj : OptionObj := .sharedNone

/-- `None.flatten: () => None`. -/
def noneFlattenObj : OptionObj := .sharedNone

/-- `None.clone: () => None`. -/
def noneCloneObj : OptionObj := .sharedNone

/-! ## A JSON serialization graph

A small model of the object graphs handed to `JSON.stringify`, with
`Result` and `Option` objects embedded at leaves.  `JSON.stringify`
consults a `toJSON` method wherever one exists: `Option` objects serialize
through `someToJSON` / `noneToJSON`; an `'ok'` Result has no `toJSON` and
serializes structurally; an `'error'` Result has the throwing `errToJSON`,
and a throw anywhere aborts the whole serialization. -/

/-- Rendering of a scalar leaf value, following `JSON.stringify` on the
constructors the graphs below use (`Infinity` serializes as `null`; an
`Error` object has only non-enumerable own properties and serializes as an
empty object). -/
def renderScalar : JSVal → String
  | .vnull => "null"
  | .vundefined => "null"
  | .vbool b => if b then "true" else "false"
  | .vnum n => toString n
  | .vinf => "null"
  | .vstr s => "\"" ++ s ++ "\""
  | .verror _ _ => "\x7b\x7d"
  | .vobj _ => "\x7b\x7d"

/-- An object graph given to `JSON.stringify`: scalar leaves, embedded
`Result` objects, embedded `Option` objects, and two-field objects (enough
to nest arbitrarily). -/
inductive JGraph : Type where
  | atom (v : JSVal)
  | res (r : ResultV)
  | opt (o : OptionV)
  | node (l : JGraph) (r : JGraph)

/-- `JSON.stringify` over a graph: `toJSON` methods are honoured, and a
`toJSON` that throws aborts the serialization with that exception. -/
def stringifyG : JGraph → Except JSVal String
  | .atom v => .ok (renderScalar v)
  | .res (.okV v) =>
      .ok ("\x7b\"type\":\"ok\",\"value\":" ++ renderScalar v ++ "\x7d")
  | .res (.errV e) =>
      match errToJSON e with
      | .error x => .error x
      | .ok v => .ok (renderScalar v)
  | .opt (.someV v) =>
      match someToJSON v with
      | .error x => .error x
      | .ok w => .ok (renderScalar w)
  | .opt .noneV =>
      match noneToJSON with
      | .error x => .error x
      | .ok w => .ok (renderScalar w)
  | .node l r =>
      match stringifyG l, stringifyG r with
      | .error x, _ => .error x
      | .ok _, .error x => .error x
      | .ok s, .ok t => .ok ("\x7b\"l\":" ++ s ++ ",\"r\":" ++ t ++ "\x7d")

/-- The graph contains an `'error'` Result somewhere. -/
def containsErr : JGraph → Bool
  | .atom _ => false
  | .res (.okV _) => false
  | .res (.errV _) => true
  | .opt _ => false
  | .node l r => containsErr l || containsErr r

/-! ## Concrete inputs used by the evaluations below. -/

/-- A wrapped callable that behaves the same on every invocation. -/
def mkFn (nm : String) (out : FnOutcome) : JSFunction :=
  ⟨nm, fun _ _ => out⟩

/-- A handler returning the string `"fallback"`. -/
def hFallback : Handler := fun _ _ _ _ => .vstr "fallback"

/-- The handler `() => Infinity` of the division scenario. -/
def hInf : Handler := fun _ _ _ _ => .vinf

/-- A thrown `TypeError` instance: its prototype chain is
`TypeError → Error`, so it is an instance of `TypeError` and of `Error`
but of no other class. -/
def typeErrorVal : JSVal := .verror ["TypeError", "Error"] "boom"

/-- A function whose invocation returns a native promise that rejects
with `typeErrorVal`. -/
def asyncTypeErrorRejecter : JSFunction :=
  mkFn "load" (.ret (.asyncVal true true (.rejects typeErrorVal)))

/-- A function that synchronously throws the plain string `"boom"`
(a non-`Error` throwable). -/
def strThrower : JSFunction := mkFn "boomer" (.throwSync (.vstr "boom"))

/-- The concrete scenario function
`function divide(a, b) { if (b === 0) throw new Error('div0'); return a / b; }`. -/
def divideFn : JSFunction :=
  ⟨"divide", fun _ args =>
    match args with
    | [.vnum a, .vnum b] =>
        if b = 0 then .throwSync (.verror ["Error"] "div0")
        else .ret (.plainVal (.vnum (a / b)))
    | _ => .ret (.plainVal .vundefined)⟩

/-- The object `{ value: { nested: undefined } }` from the repository's
own test of `Option.map`. -/
def nestedSample : JSVal := .vobj [("value", .vobj [("nested", .vundefined)])]

/-- The callback `x => x.value.nested` of that test: on `nestedSample` it
returns `undefined`. -/
def nestedProject (x : JSVal) : JSVal := prop (prop x "value") "nested"

/-- The callback `x => x + 1` on numbers (identity elsewhere), which
never throws. -/
def incJS : JSVal → Except JSVal JSVal
  | .vnum n => .ok (.vnum (n + 1))
  | v => .ok v

/-- A callback that always throws the string `"thrown"`. -/
def throwBoom : JSVal → Except JSVal JSVal := fun _ => .error (.vstr "thrown")

/-- A producer whose invocation throws `new Error('producer failed')`. -/
def failingProducer : Unit → Except JSVal JSVal :=
  fun _ => .error (.verror ["Error"] "producer failed")

end Bakutils

namespace Bakutils

/-! ## Helper lemmas -/

/-- Any rejection reaching the recovery attachment invokes the handler. -/
theorem attachRecovery_rejects (handler : Handler) (fnName : String)
    (ctx : JSVal) (args : List JSVal) (isNative hasCatch : Bool) (e : JSVal) :
    attachRecovery handler fnName ctx args (.asyncVal isNative hasCatch (.rejects e))
      = .handledAsync (handler e fnName ctx args) := rfl

/-- A graph without an `'error'` Result serializes to a string. -/
theorem stringifyG_ok_of_not_containsErr :
    ∀ g : JGraph, containsErr g = false → ∃ s, stringifyG g = .ok s := by
  intro g
  induction g with
  | atom v => intro _; exact ⟨renderScalar v, rfl⟩
  | res r =>
      intro h
      cases r with
      | okV v => exact ⟨_, rfl⟩
      | errV e => simp [containsErr] at h
  | opt o =>
      intro _
      cases o with
      | someV v => exact ⟨_, rfl⟩
      | noneV => exact ⟨_, rfl⟩
  | node l r ihl ihr =>
      intro h
      simp only [containsErr, Bool.or_eq_false_iff] at h
      obtain ⟨s, hs⟩ := ihl h.1
      obtain ⟨t, ht⟩ := ihr h.2
      have hnode : stringifyG (.node l r)
          = .ok ("\x7b\"l\":" ++ s ++ ",\"r\":" ++ t ++ "\x7d") := by
        simp [stringifyG, hs, ht]
      exact ⟨_, hnode⟩

/-- A graph with an `'error'` Result somewhere makes serialization throw. -/
theorem stringifyG_err_of_containsErr :
    ∀ g : JGraph, containsErr g = true → ∃ e, stringifyG g = .error e := by
  intro g
  induction g with
  | atom v => intro h; simp [containsErr] at h
  | res r =>
      intro h
      cases r with
      | okV v => simp [containsErr] at h
      | errV e => exact ⟨e, rfl⟩
  | opt o => intro h; simp [containsErr] at h
  | node l r ihl ihr =>
      intro h
      by_cases hl : containsErr l = true
      · obtain ⟨e, he⟩ := ihl hl
        exact ⟨e, by simp [stringifyG, he]⟩
      · have hl2 : containsErr l = false := by
          cases hcl : containsErr l
          · rfl
          · exact absurd hcl hl
        have hr : containsErr r = true := by
          simp only [containsErr, hl2, Bool.false_or] at h
          exact h
        obtain ⟨s, hs⟩ := stringifyG_ok_of_not_containsErr l hl2
        obtain ⟨e, he⟩ := ihr hr
        exact ⟨e, by simp [stringifyG, hs, he]⟩

/-! ## Claim theorems -/

/-- C1: the claim states that the recovery channel of every asynchronous
shape applies the same filter logic as the synchronous step before
invoking the handler, and that an unmatched rejection propagates as a
rejection.  The code does neither: all three async branches of
`createCatchLogic` attach `.catch(invokeHandler)` with no filter check,
so every rejection — whatever the declared filter class, async shape and
rejection value — invokes the handler and resolves the wrapper with the
handler's result; no rejection ever propagates.  Concretely,
`catcher(fn, ExtendedError, h)` over a native promise rejecting with a
`TypeError` (no instance of `ExtendedError`, not an Xrm error) resolves
with the handler's result instead of re-rejecting. -/
theorem C1_async_rejection_bypasses_filter :
    (∀ (errClass : Option String) (h : Handler) (nm fnName : String)
        (ctx : JSVal) (args : List JSVal) (isNative hasCatch : Bool) (e : JSVal),
        createCatchLogic errClass h
            (mkFn nm (.ret (.asyncVal isNative hasCatch (.rejects e))))
            fnName ctx args
          = .handledAsync (h e fnName ctx args)) ∧
    catcher asyncTypeErrorRejecter "ExtendedError" hFallback .vundefined []
      = .handledAsync (.vstr "fallback") ∧
    catcher asyncTypeErrorRejecter "ExtendedError" hFallback .vundefined []
      ≠ .rejectsWith typeErrorVal := by
  refine ⟨?_, rfl, ?_⟩
  · intro errClass h nm fnName ctx args isNative hasCatch e
    cases isNative <;> cases hasCatch <;>
      simp [createCatchLogic, mkFn, BAKUtilsIsPromise, BAKUtilsIsXrmPromiseLike,
        BAKUtilsIsThenable, attachRecovery]
  · have hc : catcher asyncTypeErrorRejecter "ExtendedError" hFallback .vundefined []
        = .handledAsync (.vstr "fallback") := rfl
    rw [hc]
    simp

/-- C2: the synchronous path of the wrapper.  A synchronous throw is
routed to the handler when no filter was given, or when it is an instance
of the filter class, or when it is an Xrm-shaped plain error object;
otherwise it is re-thrown unchanged; a plain non-thenable return value
passes through untouched.  The concrete division scenario: wrapping
`divide` with filter `Error` and handler `() => Infinity` yields
`Infinity` for `divide(4, 0)` and `2` for `divide(4, 2)`. -/
theorem C2_sync_filter_and_divide_scenario :
    (∀ (h : Handler) (nm fnName : String) (ctx : JSVal) (args : List JSVal)
        (e : JSVal),
        createCatchLogic none h (mkFn nm (.throwSync e)) fnName ctx args
          = .handledSync (h e fnName ctx args)) ∧
    (∀ (cls : String) (h : Handler) (nm fnName : String) (ctx : JSVal)
        (args : List JSVal) (e : JSVal), instanceOf e cls = true →
        createCatchLogic (some cls) h (mkFn nm (.throwSync e)) fnName ctx args
          = .handledSync (h e fnName ctx args)) ∧
    (∀ (cls : String) (h : Handler) (nm fnName : String) (ctx : JSVal)
        (args : List JSVal) (e : JSVal), BAKUtilsIsXrmError e = true →
        createCatchLogic (some cls) h (mkFn nm (.throwSync e)) fnName ctx args
          = .handledSync (h e fnName ctx args)) ∧
    (∀ (cls : String) (h : Handler) (nm fnName : String) (ctx : JSVal)
        (args : List JSVal) (e : JSVal),
        instanceOf e cls = false → BAKUtilsIsXrmError e = false →
        createCatchLogic (some cls) h (mkFn nm (.throwSync e)) fnName ctx args
          = .throws e) ∧
    (∀ (errClass : Option String) (h : Handler) (nm fnName : String)
        (ctx : JSVal) (args : List JSVal) (v : JSVal),
        createCatchLogic errClass h (mkFn nm (.ret (.plainVal v))) fnName ctx args
          = .returns v) ∧
    catcher divideFn "Error" hInf .vundefined [.vnum 4, .vnum 0]
      = .handledSync .vinf ∧
    catcher divideFn "Error" hInf .vundefined [.vnum 4, .vnum 2]
      = .returns (.vnum 2) := by
  refine ⟨?_, ?_, ?_, ?_, ?_, rfl, rfl⟩
  · intro h nm fnName ctx args e
    simp [createCatchLogic, mkFn, syncFilterMatches]
  · intro cls h nm fnName ctx args e hinst
    simp [createCatchLogic, mkFn, syncFilterMatches, hinst]
  · intro cls h nm fnName ctx args e hxrm
    simp [createCatchLogic, mkFn, syncFilterMatches, hxrm]
  · intro cls h nm fnName ctx args e hinst hxrm
    simp [createCatchLogic, mkFn, syncFilterMatches, hinst, hxrm]
  · intro errClass h nm fnName ctx args v
    simp [createCatchLogic, mkFn, BAKUtilsIsPromise, BAKUtilsIsXrmPromiseLike,
      BAKUtilsIsThenable, returnUnchanged]

/-- C2 witness: the instance-matched branch evaluated at a throw of
`new Error('div0')` with the `Infinity` handler. -/
theorem C2_witness :
    instanceOf (JSVal.verror ["Error"] "div0") "Error" = true ∧
    createCatchLogic (some "Error") hInf
        (mkFn "divide" (.throwSync (.verror ["Error"] "div0")))
        "divide" .vundefined []
      = .handledSync .vinf :=
  ⟨by decide,
   C2_sync_filter_and_divide_scenario.2.1 "Error" hInf "divide" "divide"
     .vundefined [] (.verror ["Error"] "div0") (by decide)⟩

/-- C3 counterexample: the claim says no synchronous throw of any value
ever propagates out of a `defaultCatcher`-wrapped function, yet a thrown
plain string propagates unchanged: `defaultCatcher` passes the base
`Error` class as filter, not an absent filter, and a string is not an
`Error` instance. -/
theorem C3_counterexample_string_throw_propagates :
    defaultCatcher strThrower hFallback .vundefined [] = .throws (.vstr "boom") := rfl

/-- C3 (amended): `defaultCatcher(fn, handler)` filters on the base
`Error` class — a synchronous throw is routed to the handler exactly when
it is an `Error` instance or an Xrm-shaped plain error object, and every
other throwable (such as a plain string) is re-thrown unchanged.  The
entry point that bypasses `instanceof` checks entirely is the
`AnyErrorCatcher` decorator (absent filter), not `defaultCatcher`. -/
theorem C3_defaultCatcher_filters_on_Error :
    (∀ (h : Handler) (nm : String) (ctx : JSVal) (args : List JSVal) (e : JSVal),
        (instanceOf e "Error" || BAKUtilsIsXrmError e) = true →
        defaultCatcher (mkFn nm (.throwSync e)) h ctx args
          = .handledSync (h e (diagnosticName (mkFn nm (.throwSync e))) ctx args)) ∧
    (∀ (h : Handler) (nm : String) (ctx : JSVal) (args : List JSVal) (e : JSVal),
        instanceOf e "Error" = false → BAKUtilsIsXrmError e = false →
        defaultCatcher (mkFn nm (.throwSync e)) h ctx args = .throws e) := by
  constructor
  · intro h nm ctx args e hmatch
    simp [defaultCatcher, createCatchLogic, mkFn, syncFilterMatches, hmatch]
  · intro h nm ctx args e hinst hxrm
    simp [defaultCatcher, createCatchLogic, mkFn, syncFilterMatches, hinst, hxrm]

/-- C3 witness: the amended behaviour evaluated at a thrown
`Error` instance. -/
theorem C3_witness :
    (instanceOf (JSVal.verror ["Error"] "oops") "Error"
        || BAKUtilsIsXrmError (JSVal.verror ["Error"] "oops")) = true ∧
    defaultCatcher (mkFn "f" (.throwSync (.verror ["Error"] "oops")))
        hFallback .vundefined []
      = .handledSync (.vstr "fallback") :=
  ⟨by decide,
   C3_defaultCatcher_filters_on_Error.1 hFallback "f" .vundefined []
     (.verror ["Error"] "oops") (by decide)⟩

/-- C4: the claim (backed by the repository's own test, which maps
`x => x.value.nested` over `Some({value: {nested: undefined}})` and
expects the `'none'` discriminant) requires `Some(v).map(fn)` to
re-classify the output through the smart constructor `Option` so a
nullish result yields `None` and no exception is raised.  The code
instead pipes `fn(value)` through the throwing `Some` constructor:
on the test's own input the call throws the `Some` construction error,
while the claimed `Option(fn(v))` is `None`.  `None.map` does return
`None` without consulting the callback. -/
theorem C4_some_map_throws_on_nullish_result :
    optionMap (.someV nestedSample) nestedProject = .error someCtorError ∧
    OptionMk (nestedProject nestedSample) = .noneV ∧
    (∀ fn, optionMap .noneV fn = .ok .noneV) :=
  ⟨rfl, rfl, fun _ => rfl⟩

/-- C5: `Ok(v).map(fn)` behaves as claimed — the result is re-wrapped in
`Ok` and a thrown callback is converted to `Err` of the thrown value —
but `Err(e).map(fn)` does not return an `'error'` Result carrying `e`:
the body `return this` returns the arrow-captured strict-mode `this`,
which is `undefined`.  Evaluated at `Err(5).map(x => x + 1)`. -/
theorem C5_err_map_returns_undefined :
    resultMap (.errV (.vnum 5)) incJS = none ∧
    (∀ v, resultMap (.errV (.vnum 5)) incJS ≠ some (.errV v)) ∧
    resultMap (.okV (.vnum 2)) incJS = some (.okV (.vnum 3)) ∧
    resultMap (.okV (.vnum 2)) throwBoom = some (.errV (.vstr "thrown")) := by
  refine ⟨rfl, ?_, rfl, rfl⟩
  intro v h
  exact Option.noConfusion h

/-- C6 counterexample: the claim quantifies over every `v`, but `Ok` may
hold `undefined`, and `Ok(undefined).toOption()` goes through the smart
constructor: it is `None`, not `Some(undefined)`. -/
theorem C6_counterexample_ok_undefined_toOption :
    okToOption .vundefined = .noneV ∧ okToOption .vundefined ≠ .someV .vundefined :=
  ⟨rfl, fun h => OptionV.noConfusion h⟩

/-- C6 (amended): `Ok(v).toOption()` is `Option(v)` — `Some(v)` whenever
`v` is neither `null` nor `undefined`, and `None` for nullish `v`;
`Err(e).toOption()` is `None` with the error discarded; `None.okOr(err)`
is an `Err` whose payload is `getFnValue(err)` (equal to `err` for a
plain value); and `Some(v).okOr(err).unwrap()` is `v`. -/
theorem C6_conversions :
    (∀ v, isNullish v = false → okToOption v = .someV v) ∧
    (∀ v, isNullish v = true → okToOption v = .noneV) ∧
    (∀ e, errToOption e = .noneV) ∧
    (∀ e, noneOkOr (.val e) = .errV e) ∧
    (∀ f, noneOkOr (.producer f) = .errV (f ())) ∧
    (∀ v err, resultUnwrap (someOkOr v err) = .ok v) := by
  refine ⟨?_, ?_, fun e => rfl, fun e => rfl, fun f => rfl, fun v err => rfl⟩
  · intro v hv
    simp [okToOption, OptionMk, hv]
  · intro v hv
    simp [okToOption, OptionMk, hv]

/-- C6 witness: the amended conversion evaluated at `Ok(1)` and at the
string error payload of the spec's own test property. -/
theorem C6_witness :
    isNullish (JSVal.vnum 1) = false ∧
    okToOption (JSVal.vnum 1) = .someV (.vnum 1) ∧
    noneOkOr (.val (.vstr "E")) = .errV (.vstr "E") :=
  ⟨rfl, C6_conversions.1 (.vnum 1) rfl, C6_conversions.2.2.2.1 (.vstr "E")⟩

/-- C7: the smart constructor applied to `null` or `undefined` returns
the module-level shared `None` object itself (identity, not just
structural equality), and `None.map`, `None.flatMap`, `None.flatten`,
`None.clone` all return that same shared object; no code path ever
allocates a fresh `'none'`-shaped object. -/
theorem C7_none_identity_sharing :
    OptionCtorObj .vnull = .sharedNone ∧
    OptionCtorObj .vundefined = .sharedNone ∧
    noneMapObj = .sharedNone ∧
    noneFlatMapObj = .sharedNone ∧
    noneFlattenObj = .sharedNone ∧
    noneCloneObj = .sharedNone ∧
    (∀ v, OptionCtorObj v ≠ .freshNone) := by
  refine ⟨rfl, rfl, rfl, rfl, rfl, rfl, ?_⟩
  intro v
  unfold OptionCtorObj
  split <;> simp

/-- C8: the smart constructor given a zero-argument producer: a throwing
producer is swallowed (logged) and yields `None`; a producer returning
normally yields `None` for a nullish result and `Some` of the result
otherwise. -/
theorem C8_producer_swallows_and_classifies :
    (∀ (p : Unit → Except JSVal JSVal) (e : JSVal), p () = .error e →
        OptionCtor (.producerArg p) = .noneV) ∧
    (∀ (p : Unit → Except JSVal JSVal) (r : JSVal), p () = .ok r →
        isNullish r = true → OptionCtor (.producerArg p) = .noneV) ∧
    (∀ (p : Unit → Except JSVal JSVal) (r : JSVal), p () = .ok r →
        isNullish r = false → OptionCtor (.producerArg p) = .someV r) := by
  refine ⟨?_, ?_, ?_⟩
  · intro p e hp
    simp [OptionCtor, hp]
  · intro p r hp hr
    simp [OptionCtor, hp, hr]
  · intro p r hp hr
    simp [OptionCtor, hp, hr]

/-- C8 witness: a producer that throws `new Error('producer failed')`
yields `None`. -/
theorem C8_witness :
    failingProducer () = .error (.verror ["Error"] "producer failed") ∧
    OptionCtor (.producerArg failingProducer) = .noneV :=
  ⟨rfl, C8_producer_swallows_and_classifies.1 failingProducer
    (.verror ["Error"] "producer failed") rfl⟩

/-- C9: the claim (and the method's own documentation) requires
`Some(v).clone()` to return a fresh `'some'` option holding a deep
structural copy of `v`; the code returns
`structuredClone(this)` where the arrow-captured strict-mode `this` is
`undefined`, so the call returns `undefined` and no `'some'` option at
all.  Evaluated at `Some(1).clone()`.  `None.clone()` does return the
shared `None` instance, as claimed. -/
theorem C9_some_clone_returns_undefined :
    someClone (.vnum 1) = none ∧
    (∀ w, someClone (.vnum 1) ≠ some w) ∧
    noneCloneObj = .sharedNone := by
  refine ⟨rfl, ?_, rfl⟩
  intro w h
  exact Option.noConfusion h

/-- C10: `Err(e).toJSON()` throws `e`, hence serializing any object graph
that contains an `'error'` Result aborts with the contained error instead
of producing a string — concretely, a two-field object whose second field
is `Err("E")` serializes to the thrown `"E"` — while `Option` values (the
claim's contrast) always serialize to a string. -/
theorem C10_err_toJSON_raises :
    (∀ e, errToJSON e = .error e) ∧
    (∀ g, containsErr g = true → ∃ e, stringifyG g = .error e) ∧
    stringifyG (.node (.atom (.vnum 1)) (.res (.errV (.vstr "E"))))
      = .error (.vstr "E") ∧
    (∀ o, ∃ s, stringifyG (.opt o) = .ok s) := by
  refine ⟨fun e => rfl, stringifyG_err_of_containsErr, rfl, ?_⟩
  intro o
  cases o with
  | someV v => exact ⟨_, rfl⟩
  | noneV => exact ⟨_, rfl⟩

/-- C10 witness: a graph that is a bare `Err("E")` leaf contains an
error and its serialization throws. -/
theorem C10_witness :
    containsErr (.res (.errV (.vstr "E"))) = true ∧
    ∃ e, stringifyG (.res (.errV (.vstr "E"))) = .error e :=
  ⟨rfl, C10_err_toJSON_raises.2.1 (.res (.errV (.vstr "E"))) rfl⟩

end Bakutils
